import Mathlib

set_option maxRecDepth 100000

/-!
Verification of `src/extensions/gitpod/src/registerAuth.ts` (openvscode-server,
gitpod authentication extension).

The development shallowly embeds the functions of that file that the claims
touch: the PKCE generator (`generatePKCE`, lines 94-98), the event-to-promise
adapter (`promiseFromEvent`, lines 60-88), the session validator
(`resolveAuthenticationSession`, lines 191-238), the scope check (`hasScopes`,
lines 240-242), the secret-store wait (`waitForAuthenticationSession`,
lines 250-269), the provider's `getSessions` (lines 323-330) and
`createSession` (lines 271-314).

JavaScript machinery that those functions lean on is embedded explicitly:
Node's `crypto` SHA-256/base64/hex primitives are implemented as executable
Lean functions over byte lists (FIPS 180-4, RFC 4648), promise settlement is a
write-once cell, and `Promise.race` is modelled over settle times, where a
non-promise entry counts as already settled.
-/

/-! ## Bytes, SHA-256, base64, hex (the `crypto` primitives used by the file) -/

/-- Truncation to a 32-bit word, as performed by the SHA-256 word operations. -/
def w32 (n : Nat) : Nat := n % 4294967296

/-- 32-bit right rotation (input assumed `< 2^32`). -/
def rotr32 (x n : Nat) : Nat := w32 ((x >>> n) ||| (x <<< (32 - n)))

/-- SHA-256 small sigma 0. -/
def smallSigma0 (x : Nat) : Nat := w32 ((rotr32 x 7) ^^^ (rotr32 x 18) ^^^ (x >>> 3))

/-- SHA-256 small sigma 1. -/
def smallSigma1 (x : Nat) : Nat := w32 ((rotr32 x 17) ^^^ (rotr32 x 19) ^^^ (x >>> 10))

/-- SHA-256 big sigma 0. -/
def bigSigma0 (x : Nat) : Nat := w32 ((rotr32 x 2) ^^^ (rotr32 x 13) ^^^ (rotr32 x 22))

/-- SHA-256 big sigma 1. -/
def bigSigma1 (x : Nat) : Nat := w32 ((rotr32 x 6) ^^^ (rotr32 x 11) ^^^ (rotr32 x 25))

/-- SHA-256 choose function; `4294967295 - x` is 32-bit complement. -/
def shaCh (x y z : Nat) : Nat := w32 ((x &&& y) ^^^ ((4294967295 - x) &&& z))

/-- SHA-256 majority function. -/
def shaMaj (x y z : Nat) : Nat := w32 ((x &&& y) ^^^ (x &&& z) ^^^ (y &&& z))

/-- The 64 SHA-256 round constants (FIPS 180-4), written in decimal. -/
def sha256K : List Nat :=
  [1116352408, 1899447441, 3049323471, 3921009573, 961987163,
   1508970993, 2453635748, 2870763221, 3624381080, 310598401,
   607225278, 1426881987, 1925078388, 2162078206, 2614888103,
   3248222580, 3835390401, 4022224774, 264347078, 604807628,
   770255983, 1249150122, 1555081692, 1996064986, 2554220882,
   2821834349, 2952996808, 3210313671, 3336571891, 3584528711,
   113926993, 338241895, 666307205, 773529912, 1294757372,
   1396182291, 1695183700, 1986661051, 2177026350, 2456956037,
   2730485921, 2820302411, 3259730800, 3345764771, 3516065817,
   3600352804, 4094571909, 275423344, 430227734, 506948616,
   659060556, 883997877, 958139571, 1322822218, 1537002063,
   1747873779, 1955562222, 2024104815, 2227730452, 2361852424,
   2428436474, 2756734187, 3204031479, 3329325298]

/-- SHA-256 working state: the eight 32-bit variables. -/
structure Hash8 where
  a : Nat
  b : Nat
  c : Nat
  d : Nat
  e : Nat
  f : Nat
  g : Nat
  h : Nat

/-- SHA-256 initial hash value (FIPS 180-4), written in decimal. -/
def sha256H0 : Hash8 :=
  ⟨1779033703, 3144134277, 1013904242, 2773480762,
   1359893119, 2600822924, 528734635, 1541459225⟩

/-- A 64-bit big-endian length field, as eight bytes. -/
def be64 (n : Nat) : List Nat :=
  [(n >>> 56) % 256, (n >>> 48) % 256, (n >>> 40) % 256, (n >>> 32) % 256,
   (n >>> 24) % 256, (n >>> 16) % 256, (n >>> 8) % 256, n % 256]

/-- SHA-256 message padding: append `0x80`, zero bytes to 56 mod 64, and the
bit length as a 64-bit big-endian field. -/
def sha256pad (msg : List Nat) : List Nat :=
  msg ++ [0x80] ++ List.replicate ((119 - msg.length % 64) % 64) 0 ++ be64 (msg.length * 8)

/-- Group bytes into big-endian 32-bit words (four bytes per word). -/
def toWords : List Nat → List Nat
  | b0 :: b1 :: b2 :: b3 :: rest => (((b0 * 256 + b1) * 256 + b2) * 256 + b3) :: toWords rest
  | _ => []

/-- One message-schedule extension step: append `w[t] = σ1 w[t-2] + w[t-7] + σ0 w[t-15] + w[t-16]`. -/
def scheduleStep (ws : List Nat) : List Nat :=
  ws ++ [w32 (smallSigma1 (ws.getD (ws.length - 2) 0) + ws.getD (ws.length - 7) 0 +
              smallSigma0 (ws.getD (ws.length - 15) 0) + ws.getD (ws.length - 16) 0)]

/-- Extend the 16 block words to the 64-entry message schedule. -/
def messageSchedule (ws : List Nat) : List Nat :=
  (List.range 48).foldl (fun acc _ => scheduleStep acc) ws

/-- One SHA-256 compression round. -/
def shaRound (s : Hash8) (k : Nat) (w : Nat) : Hash8 :=
  let t1 := w32 (s.h + bigSigma1 s.e + shaCh s.e s.f s.g + k + w)
  let t2 := w32 (bigSigma0 s.a + shaMaj s.a s.b s.c)
  ⟨w32 (t1 + t2), s.a, s.b, s.c, w32 (s.d + t1), s.e, s.f, s.g⟩

/-- Compress one 64-byte block into the running hash. -/
def compressBlock (h0 : Hash8) (block : List Nat) : Hash8 :=
  let ws := messageSchedule (toWords block)
  let s := (sha256K.zip ws).foldl (fun s kw => shaRound s kw.1 kw.2) h0
  ⟨w32 (h0.a + s.a), w32 (h0.b + s.b), w32 (h0.c + s.c), w32 (h0.d + s.d),
   w32 (h0.e + s.e), w32 (h0.f + s.f), w32 (h0.g + s.g), w32 (h0.h + s.h)⟩

/-- Split a byte list into 64-byte chunks; the fuel argument (any bound on the
number of chunks, e.g. the list length) keeps the recursion structural so that
the definition evaluates by kernel reduction. -/
def chunks64Aux : Nat → List Nat → List (List Nat)
  | 0, _ => []
  | _, [] => []
  | fuel + 1, l => l.take 64 :: chunks64Aux fuel (l.drop 64)

/-- Split a byte list into 64-byte chunks. -/
def chunks64 (l : List Nat) : List (List Nat) := chunks64Aux l.length l

/-- A 32-bit word as four big-endian bytes. -/
def word32Bytes (w : Nat) : List Nat :=
  [(w / 16777216) % 256, (w / 65536) % 256, (w / 256) % 256, w % 256]

/-- SHA-256 of a byte list (FIPS 180-4), as the 32 digest bytes.  Embeds
Node's `crypto.createHash('sha256')`. -/
def sha256 (msg : List Nat) : List Nat :=
  let f := (chunks64 (sha256pad msg)).foldl compressBlock sha256H0
  word32Bytes f.a ++ word32Bytes f.b ++ word32Bytes f.c ++ word32Bytes f.d ++
  word32Bytes f.e ++ word32Bytes f.f ++ word32Bytes f.g ++ word32Bytes f.h

/-- The RFC 4648 base64 alphabet. -/
def base64Chars : List Char :=
  "ABCDEFGHIJKLMNOPQRSTUVWXYZabcdefghijklmnopqrstuvwxyz0123456789+/".data

/-- Character for one 6-bit group. -/
def b64c (n : Nat) : Char := base64Chars.getD n 'A'

/-- Standard base64 with padding over a byte list, as Node's
`Buffer.toString('base64')` produces. -/
def base64EncodeList : List Nat → List Char
  | [] => []
  | [b0] => [b64c (b0 / 4), b64c ((b0 % 4) * 16), '=', '=']
  | [b0, b1] => [b64c (b0 / 4), b64c ((b0 % 4) * 16 + b1 / 16), b64c ((b1 % 16) * 4), '=']
  | b0 :: b1 :: b2 :: rest =>
      b64c (b0 / 4) :: b64c ((b0 % 4) * 16 + b1 / 16) :: b64c ((b1 % 16) * 4 + b2 / 64) ::
      b64c (b2 % 64) :: base64EncodeList rest

/-- Base64 encoding as a string. -/
def base64Encode (bs : List Nat) : String := String.mk (base64EncodeList bs)

/-- Lowercase hex digits. -/
def hexDigits : List Char := "0123456789abcdef".data

/-- Lowercase hex encoding of a byte list, two characters per byte. -/
def hexList : List Nat → List Char
  | [] => []
  | b :: t => hexDigits.getD (b / 16) '0' :: hexDigits.getD (b % 16) '0' :: hexList t

/-- Hex encoding as a string, as Node's `digest('hex')` produces. -/
def hexEncode (bs : List Nat) : String := String.mk (hexList bs)

/-- UTF-8 encoding of one code point. -/
def utf8EncodeChar (c : Nat) : List Nat :=
  if c < 128 then [c]
  else if c < 2048 then [192 + c / 64, 128 + c % 64]
  else if c < 65536 then [224 + c / 4096, 128 + (c / 64) % 64, 128 + c % 64]
  else [240 + c / 262144, 128 + (c / 4096) % 64, 128 + (c / 64) % 64, 128 + c % 64]

/-- UTF-8 bytes of a string: what Node's `hash.update(str)` (default `'utf8'`
encoding) feeds the digest. -/
def utf8Bytes (s : String) : List Nat :=
  (s.data.map (fun ch => utf8EncodeChar ch.toNat)).flatten

/-! ## Data model -/

deriving instance DecidableEq for Except

/-- A JavaScript rejection/throw reason as it occurs in this file: `reject(r)`
with a string reason, `reject()` with no argument (the cancel emitter, line 67),
or the `SyntaxError` that `JSON.parse` throws. -/
inductive JsError where
  | rejected (reason : String)
  | undef
  | parseError (msg : String)
deriving DecidableEq

/-- The persisted authentication record (`vscode.AuthenticationSession` as this
file builds and stores it, lines 229-237): `account.label` and `account.id` are
flattened to `accountLabel` / `accountId`. -/
structure AuthSession where
  id : String
  accountLabel : String
  accountId : String
  scopes : List String
  accessToken : String
deriving DecidableEq

/-- The part of the logged-in gitpod user consumed at lines 232-233. -/
structure GitpodUser where
  id : String
  name : String
deriving DecidableEq

/-- A concrete session record used as a test fixture in witnesses and
counterexamples. -/
def sampleSession : AuthSession :=
  { id := "gitpod.user", accountLabel := "Jane", accountId := "u1",
    scopes := ["s1", "s2"], accessToken := "tok" }

/-! ## PKCE generator (lines 94-98)

```
const codeVerifier = crypto.randomBytes(32).toString('base64');
const codeChallenge = crypto.createHash('sha256').update(codeVerifier).digest('base64');
```

`crypto.randomBytes(32)` is modelled by the 32-byte parameter `rand`;
`update(codeVerifier)` hashes the UTF-8 bytes of the base64 *string*
(Node's default encoding for string input), not the raw random bytes. -/

structure PKCEPair where
  codeVerifier : String
  codeChallenge : String
deriving DecidableEq

def generatePKCE (rand : List Nat) : PKCEPair :=
  let codeVerifier := base64Encode rand
  let codeChallenge := base64Encode (sha256 (utf8Bytes codeVerifier))
  { codeVerifier := codeVerifier, codeChallenge := codeChallenge }

/-! ## Event-to-promise adapter (lines 60-88)

`promiseFromEvent(event, adapter)` subscribes to the event; each emitted value
runs the adapter with the promise's `resolve`/`reject` (a throw is caught and
becomes `reject`, lines 69-74); the cancel emitter rejects with no reason
(line 67).  A JS promise settles at most once: later `resolve`/`reject` calls
are no-ops.  The two `.then` continuations (lines 76-85) each dispose the
subscription and then relay the result (return it, or rethrow).

The run of the returned promise is modelled over an explicit list of
occurrences (event emissions and cancel firings, in arrival order) as a fold
over a write-once settlement cell. -/

/-- One occurrence during the wait: the subscribed event fires with a value,
or the cancel emitter fires. -/
inductive Occurrence (T : Type) where
  | emit (value : T)
  | cancelFire
deriving DecidableEq

/-- What one adapter invocation does with `(value, resolve, reject)`:
call `resolve`, call `reject`, throw (caught and turned into `reject`,
lines 72-73), or return without settling. -/
inductive AdapterStep (U : Type) where
  | resolve (u : U)
  | reject (reason : JsError)
  | throwErr (reason : JsError)
  | keepWaiting
deriving DecidableEq

/-- A promise's settlement cell: `none` while pending, write-once. -/
structure PromiseCell (U : Type) where
  settled : Option (Except JsError U) := none
deriving DecidableEq

/-- `resolve`/`reject` on an already-settled promise are no-ops. -/
def trySettle {U : Type} (cell : PromiseCell U) (o : Except JsError U) : PromiseCell U :=
  match cell.settled with
  | some _ => cell
  | none => { settled := some o }

/-- Process one occurrence: the cancel emitter calls `reject()` (line 67); an
event emission runs the adapter (lines 68-75). -/
def stepOccurrence {T U : Type} (adapter : T → AdapterStep U) (cell : PromiseCell U)
    (occ : Occurrence T) : PromiseCell U :=
  match occ with
  | Occurrence.cancelFire => trySettle cell (Except.error JsError.undef)
  | Occurrence.emit v =>
    match adapter v with
    | AdapterStep.resolve u => trySettle cell (Except.ok u)
    | AdapterStep.reject r => trySettle cell (Except.error r)
    | AdapterStep.throwErr r => trySettle cell (Except.error r)
    | AdapterStep.keepWaiting => cell

/-- The inner promise of `promiseFromEvent` after a list of occurrences. -/
def runPromiseFromEvent {T U : Type} (adapter : T → AdapterStep U)
    (occs : List (Occurrence T)) : PromiseCell U :=
  occs.foldl (stepOccurrence adapter) {}

/-- The default adapter `(value, resolve) => resolve(value)` (line 44). -/
def passthrough {T : Type} : T → AdapterStep T := fun v => AdapterStep.resolve v

/-- The `.then` continuation pair of `promiseFromEvent` (lines 76-85): the
resolved branch disposes the subscription and returns the result; the rejected
branch disposes the subscription and rethrows.  Returns (number of dispose
calls, outer promise outcome); while the inner promise is pending neither
continuation has run. -/
def settledPromise {U : Type} (cell : PromiseCell U) : Nat × Option (Except JsError U) :=
  match cell.settled with
  | none => (0, none)
  | some (Except.ok r) => (1, some (Except.ok r))
  | some (Except.error e) => (1, some (Except.error e))

/-! ## Secret store reads (lines 267 and 328)

Both places evaluate `JSON.parse(await context.secrets.get('gitpod.authSession') || '')`.
The store holds at most one record under the fixed key; a missing value is
defaulted by `||` to the empty string, and `JSON.parse('')` throws a
`SyntaxError` ("Unexpected end of JSON input"); a present value is the JSON
text of a well-formed record written by the auth-complete callback handler and
parses back to that record (`JSON.parse` after `JSON.stringify`). -/

def readStoredSession (store : Option AuthSession) : Except JsError AuthSession :=
  match store with
  | none => Except.error (JsError.parseError "Unexpected end of JSON input")
  | some s => Except.ok s

/-! ## `hasScopes` (lines 240-242) and `getSessions` (lines 323-330)

`hasScopes` is `!scopes || scopes.every(scope => session.scopes.includes(scope))`.
`getSessions` guards with `if (!scopes)`; in JavaScript only `undefined`/`null`
are falsy there — an array, even an empty one, is truthy — so the `scopes`
argument is modelled as an `Option (List String)` with `none` standing for a
missing argument. -/

def hasScopes (session : AuthSession) (scps : Option (List String)) : Bool :=
  match scps with
  | none => true
  | some l => l.all (fun sc => session.scopes.contains sc)

def getSessions (scps : Option (List String)) (store : Option AuthSession) :
    Except JsError (List AuthSession) :=
  match scps with
  | none => Except.ok []
  | some l =>
    match readStoredSession store with
    | Except.error e => Except.error e
    | Except.ok s => Except.ok (if hasScopes s (some l) then [s] else [])

/-- The number of sessions in a `getSessions` result (0 on rejection). -/
def sessionCount : Except JsError (List AuthSession) → Nat
  | Except.ok l => l.length
  | Except.error _ => 0

/-! ## Session validator `resolveAuthenticationSession` (lines 191-238)

The function opens a reconnecting websocket (lines 195-224), awaits
`getLoggedInUser()` (line 225), computes the hex SHA-256 of the access token
(line 226), issues `getGitpodTokenScopes(hash)` *without awaiting it*
(line 227), closes the websocket (line 228) and returns the assembled session
(lines 229-237).  There is no try/finally: if the awaited `getLoggedInUser()`
rejects, the rejection propagates at line 225 and line 228 is never reached.

`userRpc` is the settlement of the `getLoggedInUser()` call; the run records
the outcome, how often `close()` ran, the hash argument passed to
`getGitpodTokenScopes`, and the ordered trace of transport/RPC operations the
function itself performs (an un-awaited RPC contributes a call step but no
completion step). -/

inductive WsOp where
  | openTransport
  | rpcCall (method : String)
  | rpcAwaited (method : String)
  | closeTransport
deriving DecidableEq

structure ValidateRun where
  outcome : Except JsError AuthSession
  closeCount : Nat
  hashSent : Option String
  trace : List WsOp
deriving DecidableEq

def resolveAuthenticationSession (scps : List String) (accessToken : String)
    (userRpc : Except JsError GitpodUser) : ValidateRun :=
  match userRpc with
  | Except.error e =>
    { outcome := Except.error e
      closeCount := 0
      hashSent := none
      trace := [WsOp.openTransport, WsOp.rpcCall "getLoggedInUser"] }
  | Except.ok user =>
    let hash := hexEncode (sha256 (utf8Bytes accessToken))
    { outcome := Except.ok
        { id := "gitpod.user"
          accountLabel := user.name
          accountId := user.id
          scopes := scps
          accessToken := accessToken }
      closeCount := 1
      hashSent := some hash
      trace := [WsOp.openTransport, WsOp.rpcCall "getLoggedInUser",
                WsOp.rpcAwaited "getLoggedInUser", WsOp.rpcCall "getGitpodTokenScopes",
                WsOp.closeTransport] }

/-- `precedes t x y`: some occurrence of `x` lies strictly before some
occurrence of `y` in the trace `t`. -/
def precedes : List WsOp → WsOp → WsOp → Bool
  | [], _, _ => false
  | a :: rest, x, y => if a = x then rest.contains y else precedes rest x y

/-! ## The secret-store wait `waitForAuthenticationSession` (lines 250-269)

The adapter passed to `promiseFromEvent` (lines 254-260) rejects with
`'Cancelled'` on any change whose key is not `'gitpod.authSession'` and
resolves with the key otherwise; after the promise resolves the function reads
and parses the stored record (line 267). -/

/-- The change event payload `{ key }` delivered by `secrets.onDidChange`. -/
structure SecretStorageChangeEvent where
  key : String
deriving DecidableEq

def sessionChangeAdapter (changeEvent : SecretStorageChangeEvent) : AdapterStep String :=
  if changeEvent.key ≠ "gitpod.authSession" then AdapterStep.reject (JsError.rejected "Cancelled")
  else AdapterStep.resolve changeEvent.key

/-- The wait's result after a list of secret-store occurrences: `none` while
nothing has settled the inner promise, otherwise the rejection, or the parsed
stored record. -/
def waitForAuthenticationSession (occs : List (Occurrence SecretStorageChangeEvent))
    (store : Option AuthSession) : Option (Except JsError AuthSession) :=
  match (runPromiseFromEvent sessionChangeAdapter occs).settled with
  | none => none
  | some (Except.error e) => some (Except.error e)
  | some (Except.ok _) => some (readStoredSession store)

/-! ## `createSession`'s race (lines 301-313)

Line 313 is `return Promise.race([timeoutPromise, waitForAuthenticationSession]);`
— the *function* `waitForAuthenticationSession` is passed uninvoked (the
`@ts-ignore` on line 312 suppresses the resulting type error).  `Promise.race`
treats a non-promise entry as a value that is already settled, so it resolves
with the function object immediately, at elapsed time 0, regardless of any
secret-store write.  The race is modelled over entries carrying a settle time
(milliseconds from the start of the race) and an outcome. -/

/-- A value a race entry can settle with: a plain JS function object, or a
session record. -/
inductive RaceValue where
  | jsFunction (name : String)
  | session (s : AuthSession)
deriving DecidableEq

/-- Is the settled value a session record? -/
def isSessionValue : RaceValue → Bool
  | RaceValue.session _ => true
  | RaceValue.jsFunction _ => false

structure Racer where
  settleTime : Nat
  outcome : Except JsError RaceValue
deriving DecidableEq

/-- `Promise.race`: the entry with the earliest settle time wins (earlier list
position wins ties); `none` for an empty race (a forever-pending promise). -/
def promiseRace (racers : List Racer) : Option Racer :=
  racers.foldl (fun best r =>
    match best with
    | none => some r
    | some b => if r.settleTime < b.settleTime then some r else some b) none

/-- The 5-minute timeout promise (lines 301-306): rejects with
`'Login timed out.'` after `1000 * 60 * 5` ms. -/
def timeoutRacer : Racer :=
  { settleTime := 300000, outcome := Except.error (JsError.rejected "Login timed out.") }

/-- The second race entry at line 313: the uninvoked function
`waitForAuthenticationSession`, a non-promise value, already settled at time 0. -/
def waitFunctionRacer : Racer :=
  { settleTime := 0, outcome := Except.ok (RaceValue.jsFunction "waitForAuthenticationSession") }

/-- The settlement of the promise `createSession` returns (line 313).  The
secret-store write schedule (elapsed ms, record written) is a parameter of the
run, but no code reachable from `createSession` observes it: the wait function
is never invoked. -/
def createSession (_storeWrite : Option (Nat × AuthSession)) : Option Racer :=
  promiseRace [timeoutRacer, waitFunctionRacer]

/-! ## Supporting lemmas -/

/-- Hex encoding yields two characters per byte. -/
theorem hexList_length (bs : List Nat) : (hexList bs).length = 2 * bs.length := by
  induction bs with
  | nil => rfl
  | cons b t ih => simp [hexList, ih]; omega

/-- A SHA-256 digest is 32 bytes, whatever the message. -/
theorem sha256_length (msg : List Nat) : (sha256 msg).length = 32 := by
  simp [sha256, word32Bytes]

/-- Base64 of `3n + 2` bytes is `4n + 4` characters. -/
theorem base64EncodeList_length_rem2 :
    ∀ (n : Nat) (bs : List Nat), bs.length = 3 * n + 2 →
      (base64EncodeList bs).length = 4 * n + 4 := by
  intro n
  induction n with
  | zero =>
    intro bs h
    cases bs with
    | nil => simp at h
    | cons b0 t =>
      cases t with
      | nil => simp at h
      | cons b1 t2 =>
        cases t2 with
        | nil => rfl
        | cons b2 t3 => simp [List.length] at h
  | succ m ih =>
    intro bs h
    cases bs with
    | nil => simp at h
    | cons b0 t =>
      cases t with
      | nil => simp at h
      | cons b1 t2 =>
        cases t2 with
        | nil => simp at h
        | cons b2 rest =>
          have hr : rest.length = 3 * m + 2 := by simp [List.length] at h; omega
          simp [base64EncodeList, ih rest hr]
          omega

/-- Base64 of 32 bytes is 44 characters. -/
theorem base64Encode_length_32 (bs : List Nat) (h : bs.length = 32) :
    (base64Encode bs).length = 44 := by
  have h2 : bs.length = 3 * 10 + 2 := by omega
  have := base64EncodeList_length_rem2 10 bs h2
  simpa [base64Encode, String.length] using this

/-- `hasScopes session (some l)` holds exactly when every requested scope is a
member of the session's scope list. -/
theorem hasScopes_iff (session : AuthSession) (l : List String) :
    hasScopes session (some l) = true ↔ ∀ sc ∈ l, sc ∈ session.scopes := by
  simp [hasScopes]

/-- A settled promise stays settled with the same outcome: further occurrences
(event emissions, cancel firings) are no-ops on the write-once cell. -/
theorem settled_stable {T U : Type} (adapter : T → AdapterStep U) (o : Except JsError U) :
    ∀ (occs : List (Occurrence T)) (cell : PromiseCell U), cell.settled = some o →
      (occs.foldl (stepOccurrence adapter) cell).settled = some o := by
  intro occs
  induction occs with
  | nil => intro cell h; exact h
  | cons occ rest ih =>
    intro cell h
    have hstep : (stepOccurrence adapter cell occ).settled = some o := by
      cases occ with
      | cancelFire => simp [stepOccurrence, trySettle, h]
      | emit v => cases hA : adapter v <;> simp [stepOccurrence, trySettle, hA, h]
    exact ih _ hstep

/-- Is the call settled successfully?  (`Except.ok`.) -/
def exceptOk {ε α : Type} : Except ε α → Bool
  | Except.ok _ => true
  | Except.error _ => false

/-! ## Claim theorems -/

/-- C1: the claim says `createSession` races the 5-minute timer against the
secret-store wait, resolving with the stored record when it is written in time
and rejecting with a timeout at no earlier than 5 minutes otherwise.  The code
instead passes the function `waitForAuthenticationSession` uninvoked to
`Promise.race` (line 313, under a `@ts-ignore`), so for every run — here shown
both with a well-formed record written at 100 ms and with no write at all —
the returned promise resolves immediately (settle time 0, strictly before the
300000 ms timeout) with the function object, which is not a session record. -/
theorem c1_createSession_race_resolves_with_uninvoked_function :
    createSession (some (100, sampleSession)) = some waitFunctionRacer ∧
    createSession none = some waitFunctionRacer ∧
    waitFunctionRacer.settleTime = 0 ∧
    waitFunctionRacer.outcome = Except.ok (RaceValue.jsFunction "waitForAuthenticationSession") ∧
    isSessionValue (RaceValue.jsFunction "waitForAuthenticationSession") = false ∧
    (0 : Nat) < 300000 :=
  ⟨rfl, rfl, rfl, rfl, rfl, by omega⟩

/-- C2 (amended): `resolveAuthenticationSession` closes its transport exactly
once if and only if the awaited `getLoggedInUser` RPC succeeds; when that RPC
rejects, the rejection propagates before the `close()` line and the transport
is never closed.  No partial session is returned on failure: the call's
outcome is successful exactly when the user RPC is. -/
theorem c2_transport_closed_iff_user_rpc_ok (scps : List String) (token : String)
    (userRpc : Except JsError GitpodUser) :
    (resolveAuthenticationSession scps token userRpc).closeCount =
      (if exceptOk userRpc then 1 else 0) ∧
    exceptOk (resolveAuthenticationSession scps token userRpc).outcome = exceptOk userRpc := by
  cases userRpc with
  | ok u => exact ⟨rfl, rfl⟩
  | error e => exact ⟨rfl, rfl⟩

/-- C2 (counterexample): when `getLoggedInUser` rejects, the transport's
`close` is called zero times and no close step occurs in the run's trace —
refuting the claim that the transport is closed on every failure path. -/
theorem c2_counterexample_no_close_on_user_rpc_failure :
    (resolveAuthenticationSession ["s1"] "tok"
      (Except.error (JsError.rejected "boom"))).closeCount = 0 ∧
    (resolveAuthenticationSession ["s1"] "tok"
      (Except.error (JsError.rejected "boom"))).trace.contains WsOp.closeTransport = false :=
  ⟨rfl, rfl⟩

/-- C3 (counterexample): at the all-zero 32-byte seed, the code's
`codeChallenge` is not the base64 SHA-256 of the raw random bytes; it is the
base64 SHA-256 of the UTF-8 bytes of the base64-encoded verifier string —
`crypto.createHash('sha256').update(codeVerifier)` hashes the string form, not
the 32 raw bytes. -/
theorem c3_counterexample_challenge_not_hash_of_raw_bytes :
    ((generatePKCE (List.replicate 32 0)).codeChallenge ==
      base64Encode (sha256 (List.replicate 32 0))) = false ∧
    (generatePKCE (List.replicate 32 0)).codeChallenge =
      base64Encode (sha256 (utf8Bytes (base64Encode (List.replicate 32 0)))) :=
  ⟨rfl, rfl⟩

/-- C3 (amended): for every 32-byte random input, `generatePKCE` returns a
`codeVerifier` that is the 44-character base64 encoding of those 32 bytes, and
a `codeChallenge` that is the 44-character base64 encoding of the SHA-256
digest of the UTF-8 bytes of the verifier *string* (the exact form
transmitted), not of the raw random bytes. -/
theorem c3_pkce_verifier_and_challenge_shape (rand : List Nat) (h : rand.length = 32) :
    (generatePKCE rand).codeVerifier = base64Encode rand ∧
    (generatePKCE rand).codeVerifier.length = 44 ∧
    (generatePKCE rand).codeChallenge =
      base64Encode (sha256 (utf8Bytes (base64Encode rand))) ∧
    (generatePKCE rand).codeChallenge.length = 44 := by
  refine ⟨rfl, ?_, rfl, ?_⟩
  · exact base64Encode_length_32 rand h
  · exact base64Encode_length_32 _ (sha256_length _)

/-- C3 (witness): the amended statement instantiated at the all-zero seed. -/
theorem c3_pkce_verifier_and_challenge_shape_witness :
    (List.replicate 32 0).length = 32 ∧
    ((generatePKCE (List.replicate 32 0)).codeVerifier = base64Encode (List.replicate 32 0) ∧
     (generatePKCE (List.replicate 32 0)).codeVerifier.length = 44 ∧
     (generatePKCE (List.replicate 32 0)).codeChallenge =
       base64Encode (sha256 (utf8Bytes (base64Encode (List.replicate 32 0)))) ∧
     (generatePKCE (List.replicate 32 0)).codeChallenge.length = 44) :=
  ⟨rfl, c3_pkce_verifier_and_challenge_shape (List.replicate 32 0) rfl⟩

/-- C4 (counterexample): with a valid session stored, `getSessions` applied to
the *empty scope array* returns that session (result count 1), not an empty
result: in JavaScript `!scopes` is false for `[]`, so the early-return guard
does not fire and the trivial superset check keeps the session. -/
theorem c4_counterexample_empty_scope_array_returns_stored_session :
    getSessions (some []) (some sampleSession) = Except.ok [sampleSession] ∧
    sessionCount (getSessions (some []) (some sampleSession)) = 1 :=
  ⟨rfl, rfl⟩

/-- C4 (amended): `getSessions` returns an immediately empty result only when
the scopes argument is missing (`undefined`/`null`); for an empty scope
*array* the stored record is parsed and returned, because an array is truthy
and every scope of the empty request is trivially included. -/
theorem c4_scope_guard_only_for_missing_argument :
    (∀ store : Option AuthSession, getSessions none store = Except.ok []) ∧
    (∀ s : AuthSession, getSessions (some []) (some s) = Except.ok [s]) :=
  ⟨fun _ => rfl, fun _ => rfl⟩

/-- C5 (amended): within one successful `resolveAuthenticationSession` run,
the awaited completion of `getLoggedInUser` precedes the issuing of
`getGitpodTokenScopes` (sequential dependency, confirmed), and the transport
close follows the *issuing* of the scopes call; but the scopes call is
fire-and-forget: no awaited completion of `getGitpodTokenScopes` ever appears
in the run's trace, so the close does not wait for it. -/
theorem c5_user_fetch_before_scope_call_close_not_awaited (scps : List String) (token : String)
    (user : GitpodUser) :
    precedes (resolveAuthenticationSession scps token (Except.ok user)).trace
      (WsOp.rpcAwaited "getLoggedInUser") (WsOp.rpcCall "getGitpodTokenScopes") = true ∧
    precedes (resolveAuthenticationSession scps token (Except.ok user)).trace
      (WsOp.rpcCall "getGitpodTokenScopes") WsOp.closeTransport = true ∧
    (resolveAuthenticationSession scps token (Except.ok user)).trace.contains
      (WsOp.rpcAwaited "getGitpodTokenScopes") = false :=
  ⟨rfl, rfl, rfl⟩

/-- C5 (counterexample): in a concrete successful run the transport close
occurs, yet no awaited completion of the `getGitpodTokenScopes` call precedes
it (the call is issued without `await` at line 227) — refuting the claim that
the close step waits for the scope-hash call to complete. -/
theorem c5_counterexample_scope_rpc_not_awaited_before_close :
    (resolveAuthenticationSession ["s1"] "tok" (Except.ok ⟨"u1", "Jane"⟩)).trace.contains
      WsOp.closeTransport = true ∧
    precedes (resolveAuthenticationSession ["s1"] "tok" (Except.ok ⟨"u1", "Jane"⟩)).trace
      (WsOp.rpcAwaited "getGitpodTokenScopes") WsOp.closeTransport = false :=
  ⟨rfl, rfl⟩

/-- C6: for every non-empty requested scope set and stored session,
`getSessions` returns the stored session exactly when the session's scope list
contains every requested scope, and the empty result otherwise. -/
theorem c6_getSessions_superset_filter (scps : List String) (s : AuthSession) (hne : scps ≠ []) :
    (getSessions (some scps) (some s) = Except.ok [s] ↔ ∀ sc ∈ scps, sc ∈ s.scopes) ∧
    ((¬ ∀ sc ∈ scps, sc ∈ s.scopes) → getSessions (some scps) (some s) = Except.ok []) := by
  by_cases hc : hasScopes s (some scps) = true
  · refine ⟨⟨fun _ => (hasScopes_iff s scps).mp hc, fun _ => ?_⟩, fun hnot => ?_⟩
    · simp [getSessions, readStoredSession, hc]
    · exact absurd ((hasScopes_iff s scps).mp hc) hnot
  · refine ⟨⟨fun h => ?_, fun hall => ?_⟩, fun _ => ?_⟩
    · exfalso
      simp [getSessions, readStoredSession, hc] at h
    · exact absurd ((hasScopes_iff s scps).mpr hall) hc
    · simp [getSessions, readStoredSession, hc]

/-- C6 (witness): instantiated at the one-scope request `["s1"]` against the
fixture session whose scopes are `["s1", "s2"]`. -/
theorem c6_getSessions_superset_filter_witness :
    (getSessions (some ["s1"]) (some sampleSession) = Except.ok [sampleSession] ↔
      ∀ sc ∈ ["s1"], sc ∈ sampleSession.scopes) ∧
    ((¬ ∀ sc ∈ ["s1"], sc ∈ sampleSession.scopes) →
      getSessions (some ["s1"]) (some sampleSession) = Except.ok []) :=
  c6_getSessions_superset_filter ["s1"] sampleSession (by decide)

/-- C7: every successful `resolveAuthenticationSession` run returns the
session assembled from the fetched identity (`accountId` = user id,
`accountLabel` = user display name), the caller's requested scopes and the
unchanged access token, and the hash passed to the token-scope lookup is the
64-character lowercase-hex SHA-256 of the access token's UTF-8 bytes. -/
theorem c7_session_from_identity_caller_scopes_token (scps : List String) (token : String)
    (user : GitpodUser) :
    (resolveAuthenticationSession scps token (Except.ok user)).outcome =
      Except.ok { id := "gitpod.user", accountLabel := user.name, accountId := user.id,
                  scopes := scps, accessToken := token } ∧
    (resolveAuthenticationSession scps token (Except.ok user)).hashSent =
      some (hexEncode (sha256 (utf8Bytes token))) ∧
    (hexEncode (sha256 (utf8Bytes token))).length = 64 := by
  refine ⟨rfl, rfl, ?_⟩
  have h := hexList_length (sha256 (utf8Bytes token))
  rw [sha256_length] at h
  simpa [hexEncode, String.length] using h

/-- C8: during the authorization wait, a secret-store change for any key other
than `'gitpod.authSession'` rejects the wait with `'Cancelled'` (it is not
ignored), while a change for the session key resolves the wait, after which
the stored record is read and deserialized. -/
theorem c8_wait_rejects_foreign_key_resolves_session_key (k : String)
    (store : Option AuthSession) (hk : k ≠ "gitpod.authSession") :
    waitForAuthenticationSession [Occurrence.emit ⟨k⟩] store =
      some (Except.error (JsError.rejected "Cancelled")) ∧
    waitForAuthenticationSession [Occurrence.emit ⟨"gitpod.authSession"⟩] store =
      some (readStoredSession store) := by
  constructor
  · have hA : sessionChangeAdapter ⟨k⟩ = AdapterStep.reject (JsError.rejected "Cancelled") := by
      simp [sessionChangeAdapter, hk]
    simp [waitForAuthenticationSession, runPromiseFromEvent, stepOccurrence, hA, trySettle]
  · rfl

/-- C8 (witness): instantiated at the foreign key `"other.key"` and the
fixture store. -/
theorem c8_wait_rejects_foreign_key_resolves_session_key_witness :
    ("other.key" ≠ "gitpod.authSession") ∧
    (waitForAuthenticationSession [Occurrence.emit ⟨"other.key"⟩] (some sampleSession) =
       some (Except.error (JsError.rejected "Cancelled")) ∧
     waitForAuthenticationSession [Occurrence.emit ⟨"gitpod.authSession"⟩] (some sampleSession) =
       some (readStoredSession (some sampleSession))) :=
  ⟨by decide,
   c8_wait_rejects_foreign_key_resolves_session_key "other.key" (some sampleSession) (by decide)⟩

/-- C9: for every adapter and every run, once the promise of
`promiseFromEvent` settles — by adapter resolution, adapter rejection/throw,
or external cancellation — it stays settled with that same outcome under any
further occurrences, the subscription is disposed exactly once, and the outer
promise relays exactly that outcome; so the promise settles exactly once and
the subscription is never leaked on a taken exit path. -/
theorem c9_promiseFromEvent_settles_and_disposes_once {T U : Type}
    (adapter : T → AdapterStep U) (occs1 occs2 : List (Occurrence T)) (o : Except JsError U)
    (h : (runPromiseFromEvent adapter occs1).settled = some o) :
    (runPromiseFromEvent adapter (occs1 ++ occs2)).settled = some o ∧
    (settledPromise (runPromiseFromEvent adapter (occs1 ++ occs2))).1 = 1 ∧
    (settledPromise (runPromiseFromEvent adapter (occs1 ++ occs2))).2 = some o := by
  have hfull : (runPromiseFromEvent adapter (occs1 ++ occs2)).settled = some o := by
    simp only [runPromiseFromEvent, List.foldl_append]
    exact settled_stable adapter o occs2 _ h
  refine ⟨hfull, ?_, ?_⟩ <;> cases o <;> simp [settledPromise, hfull]

/-- C9 (witness): a run whose first occurrence rejects (foreign key) followed
by a late cancel firing: the outcome is unchanged and the subscription is
disposed once. -/
theorem c9_promiseFromEvent_settles_and_disposes_once_witness :
    (runPromiseFromEvent sessionChangeAdapter [Occurrence.emit ⟨"other.key"⟩]).settled =
      some (Except.error (JsError.rejected "Cancelled")) ∧
    ((runPromiseFromEvent sessionChangeAdapter
        ([Occurrence.emit ⟨"other.key"⟩] ++ [Occurrence.cancelFire])).settled =
       some (Except.error (JsError.rejected "Cancelled")) ∧
     (settledPromise (runPromiseFromEvent sessionChangeAdapter
        ([Occurrence.emit ⟨"other.key"⟩] ++ [Occurrence.cancelFire]))).1 = 1 ∧
     (settledPromise (runPromiseFromEvent sessionChangeAdapter
        ([Occurrence.emit ⟨"other.key"⟩] ++ [Occurrence.cancelFire]))).2 =
       some (Except.error (JsError.rejected "Cancelled"))) :=
  ⟨rfl, c9_promiseFromEvent_settles_and_disposes_once sessionChangeAdapter
    [Occurrence.emit ⟨"other.key"⟩] [Occurrence.cancelFire]
    (Except.error (JsError.rejected "Cancelled")) rfl⟩

/-- C10: when nothing is stored under `'gitpod.authSession'`, `getSessions`
with a non-empty scope set does not return an empty result: the missing value
is defaulted to the empty string and `JSON.parse('')` throws, so the call
rejects with the deserialization error. -/
theorem c10_missing_record_rejects_with_parse_error (scps : List String) (hne : scps ≠ []) :
    getSessions (some scps) none =
      Except.error (JsError.parseError "Unexpected end of JSON input") := rfl

/-- C10 (witness): instantiated at the request `["s1"]`. -/
theorem c10_missing_record_rejects_with_parse_error_witness :
    (["s1"] ≠ ([] : List String)) ∧
    getSessions (some ["s1"]) none =
      Except.error (JsError.parseError "Unexpected end of JSON input") :=
  ⟨by decide, c10_missing_record_rejects_with_parse_error ["s1"] (by decide)⟩
